import Mathlib

/-!
# Cross-Check Framework — verification of the cost/reliability model

A shallow embedding of the quantitative model of `src/streamlit_app.py`
(the deterministic cost model `compute_metrics`, the Monte-Carlo sampler
`run_mc`, the symbolic derivative engine `symbolic_derivatives`, the
standardized-sensitivity pipeline, and the tornado local-sensitivity
analysis), with theorems settling the specification's claims about it.

Numbers are embedded as exact rationals (`ℚ`): the Python source computes
with floats, but every value the spec asserts (0.722, 0.9444, 85, …) is
the exact real-arithmetic value, so the model's semantics is the field of
rationals.  Quantities that are irrational by nature (standard deviations)
live in `ℝ`.
-/

namespace CrossCheck

/-- The `quality` selector of the sidebar: the strings "Standard" / "Low"
of the source, as an enumeration. -/
inductive Quality
  | Standard
  | Low
deriving DecidableEq

/-- The `schedule` selector of the sidebar: the strings "OnTime" / "Late"
of the source, as an enumeration. -/
inductive Schedule
  | OnTime
  | Late
deriving DecidableEq

/-- Line 433 of the source: `qual_T, qual_B = (1, 1) if qualv == "Standard"
else (2 / 3, 0.8)`. -/
def qual_mults (qualv : Quality) : ℚ × ℚ :=
  if qualv = Quality.Standard then (1, 1) else (2/3, 8/10)

/-- Line 434 of the source: `sched_T, sched_B = (1, 1) if schedv == "OnTime"
else (2 / 3, 0.8)`. -/
def sched_mults (schedv : Schedule) : ℚ × ℚ :=
  if schedv = Schedule.OnTime then (1, 1) else (2/3, 8/10)

/-- `compute_metrics` of `streamlit_app.py` (Section 2, lines 417-449):
returns `(S, C, C_loss, E, E_total)` for a single scenario.  Division is
the total field division of `ℚ` (the raising behaviour of Python's `/` at
a zero divisor is modelled separately by `compute_metrics_run`). -/
def compute_metrics (a1v a2v a3v bv cross_ratio_v prep_post_ratio_v loss_unit_v : ℚ)
    (qualv : Quality) (schedv : Schedule) (t1v t2v t3v : ℚ) :
    ℚ × ℚ × ℚ × ℚ × ℚ :=
  let qm := qual_mults qualv
  let sm := sched_mults schedv
  let a_tot := a1v * a2v * a3v
  let b_eff := bv * qm.2 * sm.2
  let S_x := 1 - (1 - a_tot) * (1 - b_eff)
  let T := (t1v + t2v + t3v) * qm.1 * sm.1
  let C_x := T * (1 + cross_ratio_v + prep_post_ratio_v)
  let C_loss_x := C_x + loss_unit_v * C_x * (1 - S_x)
  let E_x := C_x / S_x
  let E_total_x := C_loss_x / S_x
  (S_x, C_x, C_loss_x, E_x, E_total_x)

/-- The specification's §4.1 algorithm block, written from the spec's own
words (for the refinement comparison with `compute_metrics`):
`qual_T, qual_B = (1,1) if Standard else (2/3, 0.8)`;
`sched_T, sched_B = (1,1) if OnTime else (2/3, 0.8)`;
`S = 1 - (1 - a1*a2*a3) * (1 - b0*qual_B*sched_B)`;
`T_total = (t1+t2+t3)*qual_T*sched_T`;
`C = T_total*(1 + cross_check_ratio + prep_post_ratio)`;
`C_loss = C + loss_unit*C*(1-S)`; `E = C/S`; `E_total = C_loss/S`. -/
def spec_metrics (a1 a2 a3 b0 cross_check_ratio prep_post_ratio loss_unit : ℚ)
    (quality_grade : Quality) (schedule_grade : Schedule) (t1 t2 t3 : ℚ) :
    ℚ × ℚ × ℚ × ℚ × ℚ :=
  let qual_T : ℚ := if quality_grade = Quality.Standard then 1 else 2/3
  let qual_B : ℚ := if quality_grade = Quality.Standard then 1 else 8/10
  let sched_T : ℚ := if schedule_grade = Schedule.OnTime then 1 else 2/3
  let sched_B : ℚ := if schedule_grade = Schedule.OnTime then 1 else 8/10
  let S : ℚ := 1 - (1 - a1 * a2 * a3) * (1 - b0 * qual_B * sched_B)
  let T_total : ℚ := (t1 + t2 + t3) * qual_T * sched_T
  let C : ℚ := T_total * (1 + cross_check_ratio + prep_post_ratio)
  let C_loss : ℚ := C + loss_unit * C * (1 - S)
  (S, C, C_loss, C / S, C_loss / S)

/-- Python's raising exceptions, as far as the model needs them.
`domainError` is modelled from the spec: the spec's §7 error taxonomy
names a typed `DomainError`, but no such class exists anywhere in the
source; it is declared here only so the spec's claim about it can be
stated and compared with what the code does. -/
inductive PyError
  | zeroDivisionError
  | domainError
deriving DecidableEq

/-- Python scalar float division: raises `ZeroDivisionError` when the
divisor is exactly zero, otherwise returns the quotient. -/
def pyDiv (x y : ℚ) : Except PyError ℚ :=
  if y = 0 then .error .zeroDivisionError else .ok (x / y)

/-- `compute_metrics` with Python's division semantics made explicit: the
two divisions `E = C/S` and `E_total = C_loss/S` of lines 447-448 raise
`ZeroDivisionError` when `S == 0`, in evaluation order. -/
def compute_metrics_run (a1v a2v a3v bv cross_ratio_v prep_post_ratio_v loss_unit_v : ℚ)
    (qualv : Quality) (schedv : Schedule) (t1v t2v t3v : ℚ) :
    Except PyError (ℚ × ℚ × ℚ × ℚ × ℚ) :=
  let qm := qual_mults qualv
  let sm := sched_mults schedv
  let a_tot := a1v * a2v * a3v
  let b_eff := bv * qm.2 * sm.2
  let S_x := 1 - (1 - a_tot) * (1 - b_eff)
  let T := (t1v + t2v + t3v) * qm.1 * sm.1
  let C_x := T * (1 + cross_ratio_v + prep_post_ratio_v)
  let C_loss_x := C_x + loss_unit_v * C_x * (1 - S_x)
  match pyDiv C_x S_x with
  | .error e => .error e
  | .ok E_x =>
    match pyDiv C_loss_x S_x with
    | .error e => .error e
    | .ok E_total_x => .ok (S_x, C_x, C_loss_x, E_x, E_total_x)

/-- C1: for every fully specified parameter set, `compute_metrics` returns
`(S, C, C_loss, E, E_total)` given by the spec's closed formulas (the
refinement `compute_metrics = spec_metrics`), and on the concrete scenario
`a1=0.95, a2=0.95, a3=0.80, b0=0.80, Standard/OnTime, t1=10, t2=10, t3=30,
cross_check_ratio=0.30, prep_post_ratio=0.40, loss_unit=0` it returns
`S = 0.9444`, `C = 85`, `C_loss = 85`, `E = E_total = 85/0.9444`, with
`a_total = 0.722`. -/
theorem compute_metrics_matches_spec :
    (∀ (a1v a2v a3v bv crv ppv lv : ℚ) (qualv : Quality) (schedv : Schedule)
      (t1v t2v t3v : ℚ),
      compute_metrics a1v a2v a3v bv crv ppv lv qualv schedv t1v t2v t3v =
        spec_metrics a1v a2v a3v bv crv ppv lv qualv schedv t1v t2v t3v) ∧
    compute_metrics 0.95 0.95 0.80 0.80 0.30 0.40 0
        Quality.Standard Schedule.OnTime 10 10 30 =
      (9444/10000, 85, 85, 85/(9444/10000), 85/(9444/10000)) ∧
    (0.95 : ℚ) * 0.95 * 0.80 = 722/1000 := by
  refine ⟨fun a1v a2v a3v bv crv ppv lv qualv schedv t1v t2v t3v => ?_, ?_, by norm_num⟩
  · cases qualv <;> cases schedv <;> rfl
  · norm_num [compute_metrics, qual_mults, sched_mults]

/-- C4 counterexample: at an input whose derived success rate `S` is 0
(`a1 = 0`, `b0 = 0`, everything else at the observed defaults), the model
evaluation raises Python's untyped `ZeroDivisionError`, not the typed
`DomainError` the claim requires (no `DomainError` exists in the source). -/
theorem compute_metrics_zero_S_not_domainError :
    (compute_metrics 0 1 1 0 0.30 0.40 0 Quality.Standard Schedule.OnTime 10 10 30).1 = 0 ∧
    compute_metrics_run 0 1 1 0 0.30 0.40 0 Quality.Standard Schedule.OnTime 10 10 30 =
      Except.error PyError.zeroDivisionError ∧
    Except.error PyError.zeroDivisionError ≠
      (Except.error PyError.domainError : Except PyError (ℚ × ℚ × ℚ × ℚ × ℚ)) := by
  refine ⟨by norm_num [compute_metrics, qual_mults, sched_mults], ?_, by simp⟩
  norm_num [compute_metrics_run, pyDiv, qual_mults, sched_mults]

/-- C4 (amended): for every input whose derived success rate `S` equals 0,
the deterministic model evaluation fails with Python's untyped
`ZeroDivisionError` (the first division `E = C/S` raises); no typed
`DomainError` is ever produced. -/
theorem compute_metrics_run_zero_S
    (a1v a2v a3v bv crv ppv lv : ℚ) (qualv : Quality) (schedv : Schedule)
    (t1v t2v t3v : ℚ)
    (hS : (compute_metrics a1v a2v a3v bv crv ppv lv qualv schedv t1v t2v t3v).1 = 0) :
    compute_metrics_run a1v a2v a3v bv crv ppv lv qualv schedv t1v t2v t3v =
      Except.error PyError.zeroDivisionError := by
  simp only [compute_metrics] at hS
  simp only [compute_metrics_run, pyDiv, hS, if_pos]

/-- C4 witness: the amended statement applied at the concrete input
`a1 = 0`, `b0 = 0` (rest at the observed defaults), where `S = 0`. -/
theorem compute_metrics_run_zero_S_example :
    compute_metrics_run 0 1 1 0 0.30 0.40 0 Quality.Standard Schedule.OnTime 10 10 30 =
      Except.error PyError.zeroDivisionError :=
  compute_metrics_run_zero_S 0 1 1 0 0.30 0.40 0 Quality.Standard Schedule.OnTime 10 10 30
    (by norm_num [compute_metrics, qual_mults, sched_mults])

/-! ## Symbolic derivative engine (Section 9 of the source, lines 728-735)

The source builds the sympy expression `E = (C + C*L*(1-S))/S` over the
three symbols `C S L`, differentiates it symbolically with `sp.diff`, and
substitutes the operating-point values.  The embedding mirrors this with a
small expression tree, symbolic differentiation by the usual rules
(sympy's derivative is the mathematical one), and evaluation over `ℚ`. -/

/-- The three sympy symbols `C S L` of `symbolic_derivatives`. -/
inductive SymVar
  | C
  | S
  | L
deriving DecidableEq

/-- Arithmetic expressions over the symbols `C S L`, as sympy builds them
from `(C_sym+C_sym*L_sym*(1-S_sym))/S_sym`. -/
inductive SymExpr
  | const : ℚ → SymExpr
  | var : SymVar → SymExpr
  | add : SymExpr → SymExpr → SymExpr
  | sub : SymExpr → SymExpr → SymExpr
  | mul : SymExpr → SymExpr → SymExpr
  | div : SymExpr → SymExpr → SymExpr
deriving DecidableEq

/-- Evaluation of an expression at operating-point values of `C S L`
(the `subs` step of `symbolic_derivatives`). -/
def SymExpr.eval (c s l : ℚ) : SymExpr → ℚ
  | .const q => q
  | .var SymVar.C => c
  | .var SymVar.S => s
  | .var SymVar.L => l
  | .add u v => u.eval c s l + v.eval c s l
  | .sub u v => u.eval c s l - v.eval c s l
  | .mul u v => u.eval c s l * v.eval c s l
  | .div u v => u.eval c s l / v.eval c s l

/-- Symbolic partial derivative with respect to one symbol (the `sp.diff`
step): linearity, product rule, quotient rule. -/
def SymExpr.diff (x : SymVar) : SymExpr → SymExpr
  | .const _ => .const 0
  | .var y => if y = x then .const 1 else .const 0
  | .add u v => .add (u.diff x) (v.diff x)
  | .sub u v => .sub (u.diff x) (v.diff x)
  | .mul u v => .add (.mul (u.diff x) v) (.mul u (v.diff x))
  | .div u v => .div (.sub (.mul (u.diff x) v) (.mul u (v.diff x))) (.mul v v)

/-- The expression `E_expr = (C_sym + C_sym*L_sym*(1-S_sym))/S_sym` of
line 730. -/
def E_expr : SymExpr :=
  .div (.add (.var .C) (.mul (.mul (.var .C) (.var .L)) (.sub (.const 1) (.var .S))))
    (.var .S)

/-- `symbolic_derivatives(C_, S_, L_)` of lines 728-735: the three partial
derivatives of `E_expr` with respect to `C`, `S`, `L`, evaluated at the
operating point — returned in that order (`dE_dC`, `dE_dS`, `dE_dL`). -/
def symbolic_derivatives (c s l : ℚ) : ℚ × ℚ × ℚ :=
  ((E_expr.diff .C).eval c s l, (E_expr.diff .S).eval c s l, (E_expr.diff .L).eval c s l)

/-- C2: at every operating point with `S ∈ (0,1]`, `C > 0` and
`loss_unit = ℓ ≥ 0`, the symbolic derivative engine returns exactly the
closed-form partial derivatives of `E_total(C,S,ℓ) = (C + C·ℓ·(1−S))/S`:
`∂E/∂C = (1 + ℓ(1−S))/S`, `∂E/∂S = (−Cℓ S − (C + Cℓ(1−S)))/S²`,
`∂E/∂ℓ = C(1−S)/S`. -/
theorem symbolic_derivatives_closed_form (c s l : ℚ)
    (hs0 : 0 < s) (hs1 : s ≤ 1) (hc : 0 < c) (hl : 0 ≤ l) :
    symbolic_derivatives c s l =
      ((1 + l * (1 - s)) / s,
       (-(c * l * s) - (c + c * l * (1 - s))) / s ^ 2,
       c * (1 - s) / s) := by
  have hs : s ≠ 0 := ne_of_gt hs0
  simp only [symbolic_derivatives, E_expr, SymExpr.diff, SymExpr.eval, if_pos, if_neg,
    reduceCtorEq, reduceIte]
  refine Prod.ext ?_ (Prod.ext ?_ ?_)
  · field_simp
    ring
  · field_simp
    ring_nf
    exact Or.inl trivial
  · field_simp
    ring

/-- C2 witness: the closed forms at the concrete operating point
`C = 85`, `S = 1/2`, `ℓ = 2`. -/
theorem symbolic_derivatives_closed_form_example :
    symbolic_derivatives 85 (1/2) 2 =
      ((1 + 2 * (1 - 1/2)) / (1/2),
       (-(85 * 2 * (1/2)) - (85 + 85 * 2 * (1 - 1/2))) / (1/2) ^ 2,
       85 * (1 - 1/2) / (1/2)) :=
  symbolic_derivatives_closed_form 85 (1/2) 2 (by norm_num) (by norm_num) (by norm_num)
    (by norm_num)

/-! ## Algebraic invariants and monotonicity of the deterministic model -/

/-- `compute_metrics` written out: each component as a closed formula of the
inputs (the lets of the definition inlined). -/
theorem compute_metrics_eq (a1v a2v a3v bv crv ppv lv : ℚ)
    (qualv : Quality) (schedv : Schedule) (t1v t2v t3v : ℚ) :
    compute_metrics a1v a2v a3v bv crv ppv lv qualv schedv t1v t2v t3v =
      (1 - (1 - a1v * a2v * a3v) * (1 - bv * (qual_mults qualv).2 * (sched_mults schedv).2),
       (t1v + t2v + t3v) * (qual_mults qualv).1 * (sched_mults schedv).1 * (1 + crv + ppv),
       (t1v + t2v + t3v) * (qual_mults qualv).1 * (sched_mults schedv).1 * (1 + crv + ppv)
         + lv * ((t1v + t2v + t3v) * (qual_mults qualv).1 * (sched_mults schedv).1
             * (1 + crv + ppv))
         * (1 - (1 - (1 - a1v * a2v * a3v)
             * (1 - bv * (qual_mults qualv).2 * (sched_mults schedv).2))),
       ((t1v + t2v + t3v) * (qual_mults qualv).1 * (sched_mults schedv).1 * (1 + crv + ppv))
         / (1 - (1 - a1v * a2v * a3v)
             * (1 - bv * (qual_mults qualv).2 * (sched_mults schedv).2)),
       ((t1v + t2v + t3v) * (qual_mults qualv).1 * (sched_mults schedv).1 * (1 + crv + ppv)
         + lv * ((t1v + t2v + t3v) * (qual_mults qualv).1 * (sched_mults schedv).1
             * (1 + crv + ppv))
         * (1 - (1 - (1 - a1v * a2v * a3v)
             * (1 - bv * (qual_mults qualv).2 * (sched_mults schedv).2))))
         / (1 - (1 - a1v * a2v * a3v)
             * (1 - bv * (qual_mults qualv).2 * (sched_mults schedv).2))) := rfl

theorem qual_mults_T_pos (q : Quality) : 0 < (qual_mults q).1 := by
  cases q <;> simp [qual_mults] <;> norm_num

theorem sched_mults_T_pos (s : Schedule) : 0 < (sched_mults s).1 := by
  cases s <;> simp [sched_mults] <;> norm_num

theorem qual_mults_B_bounds (q : Quality) : 0 ≤ (qual_mults q).2 ∧ (qual_mults q).2 ≤ 1 := by
  cases q <;> simp [qual_mults] <;> norm_num

theorem sched_mults_B_bounds (s : Schedule) : 0 ≤ (sched_mults s).2 ∧ (sched_mults s).2 ≤ 1 := by
  cases s <;> simp [sched_mults] <;> norm_num

/-- Core ordering facts about `C_loss = C + l·C·(1−S)`, `E = C/S` and
`E_total = C_loss/S` for `0 < S ≤ 1`, `0 ≤ C`, `0 ≤ l`. -/
theorem loss_ordering (S C l : ℚ) (hS0 : 0 < S) (hS1 : S ≤ 1) (hC : 0 ≤ C) (hl : 0 ≤ l) :
    C ≤ C + l * C * (1 - S) ∧ 0 ≤ C / S ∧
    C / S ≤ (C + l * C * (1 - S)) / S ∧
    (C + l * C * (1 - S) = C ↔ l = 0 ∨ S = 1 ∨ C = 0) ∧
    ((C + l * C * (1 - S)) / S = C / S ↔ l = 0 ∨ S = 1 ∨ C = 0) := by
  have hterm : 0 ≤ l * C * (1 - S) := by
    have h1 : 0 ≤ 1 - S := by linarith
    positivity
  have h1 : C ≤ C + l * C * (1 - S) := by linarith
  have h2 : 0 ≤ C / S := div_nonneg hC hS0.le
  have h3 : C / S ≤ (C + l * C * (1 - S)) / S := by gcongr
  have h4 : C + l * C * (1 - S) = C ↔ l = 0 ∨ S = 1 ∨ C = 0 := by
    constructor
    · intro h
      have hz : l * C * (1 - S) = 0 := by linarith
      rcases mul_eq_zero.mp hz with hz' | hz'
      · rcases mul_eq_zero.mp hz' with hz'' | hz''
        · exact Or.inl hz''
        · exact Or.inr (Or.inr hz'')
      · exact Or.inr (Or.inl (by linarith [sub_eq_zero.mp hz']))
    · rintro (h | h | h) <;> simp [h]
  refine ⟨h1, h2, h3, h4, ?_⟩
  refine Iff.trans ⟨fun h => ?_, fun h => by rw [h]⟩ h4
  field_simp at h
  linarith

/-- `E_total = (C + l·C·(1−S))/S` is antitone in `S` on `(0,1]` for fixed
`C ≥ 0`, `l ≥ 0`. -/
theorem E_total_anti (C S S' l : ℚ) (hS0 : 0 < S) (hSS : S ≤ S') (hS1 : S' ≤ 1)
    (hC : 0 ≤ C) (hl : 0 ≤ l) :
    (C + l * C * (1 - S')) / S' ≤ (C + l * C * (1 - S)) / S := by
  have hS'0 : 0 < S' := lt_of_lt_of_le hS0 hSS
  rw [div_le_div_iff hS'0 hS0]
  nlinarith [mul_nonneg (mul_nonneg hl hC) (sub_nonneg.mpr hSS),
    mul_le_mul_of_nonneg_left hSS (mul_nonneg hC hl)]

/-- `S = 1 − (1−aT)(1−bE)` strictly increases when the main-path success
`aT` strictly increases, provided the baseline `S < 1` (so `bE < 1`). -/
theorem S_strict_main (aT aT' bE : ℚ) (hlt : aT < aT') (hbE : bE ≤ 1)
    (hS : 1 - (1 - aT) * (1 - bE) < 1) :
    1 - (1 - aT) * (1 - bE) < 1 - (1 - aT') * (1 - bE) := by
  have hprod : 0 < (1 - aT) * (1 - bE) := by linarith
  have hb : 0 < 1 - bE := by
    have h0 : 0 ≤ 1 - bE := by linarith
    rcases h0.lt_or_eq with h | h
    · exact h
    · exfalso
      rw [← h, mul_zero] at hprod
      exact lt_irrefl 0 hprod
  nlinarith [mul_pos (show (0:ℚ) < aT' - aT by linarith) hb]

/-- `S = 1 − (1−aT)(1−bE)` strictly increases when the checker term `bE`
strictly increases, provided the baseline `S < 1` (so `aT < 1`). -/
theorem S_strict_checker (aT bE bE' : ℚ) (hlt : bE < bE') (haT : aT ≤ 1)
    (hS : 1 - (1 - aT) * (1 - bE) < 1) :
    1 - (1 - aT) * (1 - bE) < 1 - (1 - aT) * (1 - bE') := by
  have hprod : 0 < (1 - aT) * (1 - bE) := by linarith
  have ha : 0 < 1 - aT := by
    have h0 : 0 ≤ 1 - aT := by linarith
    rcases h0.lt_or_eq with h | h
    · exact h
    · exfalso
      rw [← h, zero_mul] at hprod
      exact lt_irrefl 0 hprod
  nlinarith [mul_pos ha (show (0:ℚ) < bE' - bE by linarith)]

theorem qual_mults_B_pos (q : Quality) : 0 < (qual_mults q).2 := by
  cases q <;> simp [qual_mults] <;> norm_num

theorem sched_mults_B_pos (s : Schedule) : 0 < (sched_mults s).2 := by
  cases s <;> simp [sched_mults] <;> norm_num

theorem S_pos (aT bE : ℚ) (h0 : 0 < aT) (h1 : aT ≤ 1) (hb0 : 0 ≤ bE) (hb1 : bE ≤ 1) :
    0 < 1 - (1 - aT) * (1 - bE) := by
  have := mul_le_of_le_one_right (show (0:ℚ) ≤ 1 - aT by linarith)
    (show 1 - bE ≤ 1 by linarith)
  linarith

theorem S_le_one (aT bE : ℚ) (h1 : aT ≤ 1) (hb1 : bE ≤ 1) :
    1 - (1 - aT) * (1 - bE) ≤ 1 := by
  nlinarith [mul_nonneg (show (0:ℚ) ≤ 1 - aT by linarith) (show (0:ℚ) ≤ 1 - bE by linarith)]

/-- C10: for non-negative task hours, ratios in `[0, 0.5]`, `loss_unit ≥ 0`
and derived success rate `S ∈ (0,1]`, the outputs of `compute_metrics`
satisfy `C_loss ≥ C ≥ 0` and `E_total ≥ E ≥ 0`, with `C_loss = C`
(equivalently `E_total = E`) exactly when `loss_unit = 0`, `S = 1`
or `C = 0`. -/
theorem compute_metrics_ordering (a1v a2v a3v bv crv ppv lv : ℚ)
    (qualv : Quality) (schedv : Schedule) (t1v t2v t3v : ℚ)
    (ht1 : 0 ≤ t1v) (ht2 : 0 ≤ t2v) (ht3 : 0 ≤ t3v)
    (hcr0 : 0 ≤ crv) (hcr1 : crv ≤ 1/2) (hpp0 : 0 ≤ ppv) (hpp1 : ppv ≤ 1/2)
    (hl : 0 ≤ lv)
    (hS0 : 0 < (compute_metrics a1v a2v a3v bv crv ppv lv qualv schedv t1v t2v t3v).1)
    (hS1 : (compute_metrics a1v a2v a3v bv crv ppv lv qualv schedv t1v t2v t3v).1 ≤ 1) :
    0 ≤ (compute_metrics a1v a2v a3v bv crv ppv lv qualv schedv t1v t2v t3v).2.1 ∧
    (compute_metrics a1v a2v a3v bv crv ppv lv qualv schedv t1v t2v t3v).2.1 ≤
      (compute_metrics a1v a2v a3v bv crv ppv lv qualv schedv t1v t2v t3v).2.2.1 ∧
    0 ≤ (compute_metrics a1v a2v a3v bv crv ppv lv qualv schedv t1v t2v t3v).2.2.2.1 ∧
    (compute_metrics a1v a2v a3v bv crv ppv lv qualv schedv t1v t2v t3v).2.2.2.1 ≤
      (compute_metrics a1v a2v a3v bv crv ppv lv qualv schedv t1v t2v t3v).2.2.2.2 ∧
    ((compute_metrics a1v a2v a3v bv crv ppv lv qualv schedv t1v t2v t3v).2.2.1 =
        (compute_metrics a1v a2v a3v bv crv ppv lv qualv schedv t1v t2v t3v).2.1 ↔
      lv = 0 ∨ (compute_metrics a1v a2v a3v bv crv ppv lv qualv schedv t1v t2v t3v).1 = 1 ∨
        (compute_metrics a1v a2v a3v bv crv ppv lv qualv schedv t1v t2v t3v).2.1 = 0) ∧
    ((compute_metrics a1v a2v a3v bv crv ppv lv qualv schedv t1v t2v t3v).2.2.2.2 =
        (compute_metrics a1v a2v a3v bv crv ppv lv qualv schedv t1v t2v t3v).2.2.2.1 ↔
      lv = 0 ∨ (compute_metrics a1v a2v a3v bv crv ppv lv qualv schedv t1v t2v t3v).1 = 1 ∨
        (compute_metrics a1v a2v a3v bv crv ppv lv qualv schedv t1v t2v t3v).2.1 = 0) := by
  simp only [compute_metrics_eq] at hS0 hS1 ⊢
  have hC0 : 0 ≤ (t1v + t2v + t3v) * (qual_mults qualv).1 * (sched_mults schedv).1
      * (1 + crv + ppv) := by
    refine mul_nonneg (mul_nonneg (mul_nonneg (by linarith) ?_) ?_) (by linarith)
    · exact (qual_mults_T_pos qualv).le
    · exact (sched_mults_T_pos schedv).le
  obtain ⟨o1, o2, o3, o4, o5⟩ := loss_ordering
    (1 - (1 - a1v * a2v * a3v) * (1 - bv * (qual_mults qualv).2 * (sched_mults schedv).2))
    ((t1v + t2v + t3v) * (qual_mults qualv).1 * (sched_mults schedv).1 * (1 + crv + ppv))
    lv hS0 hS1 hC0 hl
  exact ⟨hC0, o1, o2, o3, o4, o5⟩

/-- C10 witness: the invariants at the concrete parameter set
`a1=a2=a3=1/2, b0=1/2, cr=pp=1/4, loss_unit=2, Standard/OnTime, t=1,1,1`
(where `S = 9/16`). -/
theorem compute_metrics_ordering_example :
    0 ≤ (compute_metrics (1/2) (1/2) (1/2) (1/2) (1/4) (1/4) 2
        Quality.Standard Schedule.OnTime 1 1 1).2.1 ∧
    (compute_metrics (1/2) (1/2) (1/2) (1/2) (1/4) (1/4) 2
        Quality.Standard Schedule.OnTime 1 1 1).2.1 ≤
      (compute_metrics (1/2) (1/2) (1/2) (1/2) (1/4) (1/4) 2
        Quality.Standard Schedule.OnTime 1 1 1).2.2.1 ∧
    0 ≤ (compute_metrics (1/2) (1/2) (1/2) (1/2) (1/4) (1/4) 2
        Quality.Standard Schedule.OnTime 1 1 1).2.2.2.1 ∧
    (compute_metrics (1/2) (1/2) (1/2) (1/2) (1/4) (1/4) 2
        Quality.Standard Schedule.OnTime 1 1 1).2.2.2.1 ≤
      (compute_metrics (1/2) (1/2) (1/2) (1/2) (1/4) (1/4) 2
        Quality.Standard Schedule.OnTime 1 1 1).2.2.2.2 ∧
    ((compute_metrics (1/2) (1/2) (1/2) (1/2) (1/4) (1/4) 2
        Quality.Standard Schedule.OnTime 1 1 1).2.2.1 =
      (compute_metrics (1/2) (1/2) (1/2) (1/2) (1/4) (1/4) 2
        Quality.Standard Schedule.OnTime 1 1 1).2.1 ↔
      (2:ℚ) = 0 ∨ (compute_metrics (1/2) (1/2) (1/2) (1/2) (1/4) (1/4) 2
        Quality.Standard Schedule.OnTime 1 1 1).1 = 1 ∨
        (compute_metrics (1/2) (1/2) (1/2) (1/2) (1/4) (1/4) 2
          Quality.Standard Schedule.OnTime 1 1 1).2.1 = 0) ∧
    ((compute_metrics (1/2) (1/2) (1/2) (1/2) (1/4) (1/4) 2
        Quality.Standard Schedule.OnTime 1 1 1).2.2.2.2 =
      (compute_metrics (1/2) (1/2) (1/2) (1/2) (1/4) (1/4) 2
        Quality.Standard Schedule.OnTime 1 1 1).2.2.2.1 ↔
      (2:ℚ) = 0 ∨ (compute_metrics (1/2) (1/2) (1/2) (1/2) (1/4) (1/4) 2
        Quality.Standard Schedule.OnTime 1 1 1).1 = 1 ∨
        (compute_metrics (1/2) (1/2) (1/2) (1/2) (1/4) (1/4) 2
          Quality.Standard Schedule.OnTime 1 1 1).2.1 = 0) :=
  compute_metrics_ordering (1/2) (1/2) (1/2) (1/2) (1/4) (1/4) 2
    Quality.Standard Schedule.OnTime 1 1 1
    (by norm_num) (by norm_num) (by norm_num) (by norm_num) (by norm_num)
    (by norm_num) (by norm_num) (by norm_num)
    (by norm_num [compute_metrics, qual_mults, sched_mults])
    (by norm_num [compute_metrics, qual_mults, sched_mults])

/-- C6 counterexample: with `b0 = 1` (Standard/OnTime, so `b_effective = 1`
and `S ≡ 1`), increasing `a1` from `1/2` to `3/5` — all parameters inside
the claim's domains `a_i ∈ (0,1]`, `b0 ∈ [0,1]` — does NOT strictly
increase `S`: the claimed strict monotonicity fails. -/
theorem compute_metrics_not_strict_at_saturation :
    (compute_metrics (1/2) 1 1 1 0 0 0 Quality.Standard Schedule.OnTime 1 1 1).1 = 1 ∧
    (compute_metrics (3/5) 1 1 1 0 0 0 Quality.Standard Schedule.OnTime 1 1 1).1 = 1 ∧
    ¬ ((compute_metrics (1/2) 1 1 1 0 0 0 Quality.Standard Schedule.OnTime 1 1 1).1 <
        (compute_metrics (3/5) 1 1 1 0 0 0 Quality.Standard Schedule.OnTime 1 1 1).1) := by
  norm_num [compute_metrics, qual_mults, sched_mults]

/-- C6 (amended): at any baseline with `a_i ∈ (0,1]`, `b0 ∈ [0,1]` and
derived `S < 1`, increasing any ONE of `a1`, `a2`, `a3`, `b0` within its
domain (the rest held fixed) strictly increases `S` (at `S = 1` — e.g.
`b_effective = 1` or `a_total = 1` — `S` stays 1, see the counterexample);
and `E_total` is non-increasing in each of these success-driving
parameters (with `C` held fixed, which `compute_metrics` does
automatically: `C` does not depend on `a_i, b0`). -/
theorem compute_metrics_monotone
    (a1v a2v a3v bv crv ppv lv t1v t2v t3v : ℚ)
    (qualv : Quality) (schedv : Schedule)
    (h1 : 0 < a1v) (h1u : a1v ≤ 1)
    (h2 : 0 < a2v) (h2u : a2v ≤ 1)
    (h3 : 0 < a3v) (h3u : a3v ≤ 1)
    (hb : 0 ≤ bv) (hbu : bv ≤ 1)
    (hl : 0 ≤ lv) (ht1 : 0 ≤ t1v) (ht2 : 0 ≤ t2v) (ht3 : 0 ≤ t3v)
    (hcr : 0 ≤ crv) (hpp : 0 ≤ ppv)
    (hSlt : (compute_metrics a1v a2v a3v bv crv ppv lv qualv schedv t1v t2v t3v).1 < 1) :
    (∀ w : ℚ, a1v < w → w ≤ 1 →
      (compute_metrics a1v a2v a3v bv crv ppv lv qualv schedv t1v t2v t3v).1 <
        (compute_metrics w a2v a3v bv crv ppv lv qualv schedv t1v t2v t3v).1 ∧
      (compute_metrics w a2v a3v bv crv ppv lv qualv schedv t1v t2v t3v).2.2.2.2 ≤
        (compute_metrics a1v a2v a3v bv crv ppv lv qualv schedv t1v t2v t3v).2.2.2.2) ∧
    (∀ w : ℚ, a2v < w → w ≤ 1 →
      (compute_metrics a1v a2v a3v bv crv ppv lv qualv schedv t1v t2v t3v).1 <
        (compute_metrics a1v w a3v bv crv ppv lv qualv schedv t1v t2v t3v).1 ∧
      (compute_metrics a1v w a3v bv crv ppv lv qualv schedv t1v t2v t3v).2.2.2.2 ≤
        (compute_metrics a1v a2v a3v bv crv ppv lv qualv schedv t1v t2v t3v).2.2.2.2) ∧
    (∀ w : ℚ, a3v < w → w ≤ 1 →
      (compute_metrics a1v a2v a3v bv crv ppv lv qualv schedv t1v t2v t3v).1 <
        (compute_metrics a1v a2v w bv crv ppv lv qualv schedv t1v t2v t3v).1 ∧
      (compute_metrics a1v a2v w bv crv ppv lv qualv schedv t1v t2v t3v).2.2.2.2 ≤
        (compute_metrics a1v a2v a3v bv crv ppv lv qualv schedv t1v t2v t3v).2.2.2.2) ∧
    (∀ w : ℚ, bv < w → w ≤ 1 →
      (compute_metrics a1v a2v a3v bv crv ppv lv qualv schedv t1v t2v t3v).1 <
        (compute_metrics a1v a2v a3v w crv ppv lv qualv schedv t1v t2v t3v).1 ∧
      (compute_metrics a1v a2v a3v w crv ppv lv qualv schedv t1v t2v t3v).2.2.2.2 ≤
        (compute_metrics a1v a2v a3v bv crv ppv lv qualv schedv t1v t2v t3v).2.2.2.2) := by
  simp only [compute_metrics_eq] at hSlt ⊢
  obtain ⟨hqB0, hqB1⟩ := qual_mults_B_bounds qualv
  obtain ⟨hsB0, hsB1⟩ := sched_mults_B_bounds schedv
  have hqBp := qual_mults_B_pos qualv
  have hsBp := sched_mults_B_pos schedv
  have hbE0 : 0 ≤ bv * (qual_mults qualv).2 * (sched_mults schedv).2 :=
    mul_nonneg (mul_nonneg hb hqB0) hsB0
  have hbE1 : bv * (qual_mults qualv).2 * (sched_mults schedv).2 ≤ 1 :=
    mul_le_one₀ (mul_le_one₀ hbu hqB0 hqB1) hsB0 hsB1
  have haT0 : 0 < a1v * a2v * a3v := mul_pos (mul_pos h1 h2) h3
  have haT1 : a1v * a2v * a3v ≤ 1 :=
    mul_le_one₀ (mul_le_one₀ h1u h2.le h2u) h3.le h3u
  have hC0 : 0 ≤ (t1v + t2v + t3v) * (qual_mults qualv).1 * (sched_mults schedv).1
      * (1 + crv + ppv) := by
    refine mul_nonneg (mul_nonneg (mul_nonneg (by linarith) ?_) ?_) (by linarith)
    · exact (qual_mults_T_pos qualv).le
    · exact (sched_mults_T_pos schedv).le
  have hS0 := S_pos (a1v * a2v * a3v)
    (bv * (qual_mults qualv).2 * (sched_mults schedv).2) haT0 haT1 hbE0 hbE1
  refine ⟨fun w hw hwu => ?_, fun w hw hwu => ?_, fun w hw hwu => ?_, fun w hw hwu => ?_⟩
  · have hlt : a1v * a2v * a3v < w * a2v * a3v :=
      mul_lt_mul_of_pos_right (mul_lt_mul_of_pos_right hw h2) h3
    have haTw : w * a2v * a3v ≤ 1 :=
      mul_le_one₀ (mul_le_one₀ hwu h2.le h2u) h3.le h3u
    have hs := S_strict_main (a1v * a2v * a3v) (w * a2v * a3v)
      (bv * (qual_mults qualv).2 * (sched_mults schedv).2) hlt hbE1 hSlt
    exact ⟨hs, E_total_anti _ _ _ lv hS0 hs.le (S_le_one _ _ haTw hbE1) hC0 hl⟩
  · have hlt : a1v * a2v * a3v < a1v * w * a3v :=
      mul_lt_mul_of_pos_right (mul_lt_mul_of_pos_left hw h1) h3
    have haTw : a1v * w * a3v ≤ 1 :=
      mul_le_one₀ (mul_le_one₀ h1u (h2.trans hw).le hwu) h3.le h3u
    have hs := S_strict_main (a1v * a2v * a3v) (a1v * w * a3v)
      (bv * (qual_mults qualv).2 * (sched_mults schedv).2) hlt hbE1 hSlt
    exact ⟨hs, E_total_anti _ _ _ lv hS0 hs.le (S_le_one _ _ haTw hbE1) hC0 hl⟩
  · have hlt : a1v * a2v * a3v < a1v * a2v * w :=
      mul_lt_mul_of_pos_left hw (mul_pos h1 h2)
    have haTw : a1v * a2v * w ≤ 1 :=
      mul_le_one₀ (mul_le_one₀ h1u h2.le h2u) (h3.trans hw).le hwu
    have hs := S_strict_main (a1v * a2v * a3v) (a1v * a2v * w)
      (bv * (qual_mults qualv).2 * (sched_mults schedv).2) hlt hbE1 hSlt
    exact ⟨hs, E_total_anti _ _ _ lv hS0 hs.le (S_le_one _ _ haTw hbE1) hC0 hl⟩
  · have hlt : bv * (qual_mults qualv).2 * (sched_mults schedv).2 <
        w * (qual_mults qualv).2 * (sched_mults schedv).2 :=
      mul_lt_mul_of_pos_right (mul_lt_mul_of_pos_right hw hqBp) hsBp
    have hbwE1 : w * (qual_mults qualv).2 * (sched_mults schedv).2 ≤ 1 :=
      mul_le_one₀ (mul_le_one₀ hwu hqB0 hqB1) hsB0 hsB1
    have hs := S_strict_checker (a1v * a2v * a3v)
      (bv * (qual_mults qualv).2 * (sched_mults schedv).2)
      (w * (qual_mults qualv).2 * (sched_mults schedv).2) hlt haT1 hSlt
    exact ⟨hs, E_total_anti _ _ _ lv hS0 hs.le (S_le_one _ _ haT1 hbwE1) hC0 hl⟩

/-- C6 witness: the amended monotonicity applied at the concrete baseline
`a1=0.9, a2=1, a3=1, b0=1/2, cr=pp=1/4, loss_unit=2, Standard/OnTime,
t=1,1,1` (where `a2 = a3 = 1` sit at the top of their domains and
`S = 1 - (1-0.9)(1-1/2) = 0.95 < 1`). -/
theorem compute_metrics_monotone_example :
    (∀ w : ℚ, (9/10 : ℚ) < w → w ≤ 1 →
      (compute_metrics (9/10) 1 1 (1/2) (1/4) (1/4) 2
        Quality.Standard Schedule.OnTime 1 1 1).1 <
        (compute_metrics w 1 1 (1/2) (1/4) (1/4) 2
          Quality.Standard Schedule.OnTime 1 1 1).1 ∧
      (compute_metrics w 1 1 (1/2) (1/4) (1/4) 2
        Quality.Standard Schedule.OnTime 1 1 1).2.2.2.2 ≤
        (compute_metrics (9/10) 1 1 (1/2) (1/4) (1/4) 2
          Quality.Standard Schedule.OnTime 1 1 1).2.2.2.2) ∧
    (∀ w : ℚ, (1 : ℚ) < w → w ≤ 1 →
      (compute_metrics (9/10) 1 1 (1/2) (1/4) (1/4) 2
        Quality.Standard Schedule.OnTime 1 1 1).1 <
        (compute_metrics (9/10) w 1 (1/2) (1/4) (1/4) 2
          Quality.Standard Schedule.OnTime 1 1 1).1 ∧
      (compute_metrics (9/10) w 1 (1/2) (1/4) (1/4) 2
        Quality.Standard Schedule.OnTime 1 1 1).2.2.2.2 ≤
        (compute_metrics (9/10) 1 1 (1/2) (1/4) (1/4) 2
          Quality.Standard Schedule.OnTime 1 1 1).2.2.2.2) ∧
    (∀ w : ℚ, (1 : ℚ) < w → w ≤ 1 →
      (compute_metrics (9/10) 1 1 (1/2) (1/4) (1/4) 2
        Quality.Standard Schedule.OnTime 1 1 1).1 <
        (compute_metrics (9/10) 1 w (1/2) (1/4) (1/4) 2
          Quality.Standard Schedule.OnTime 1 1 1).1 ∧
      (compute_metrics (9/10) 1 w (1/2) (1/4) (1/4) 2
        Quality.Standard Schedule.OnTime 1 1 1).2.2.2.2 ≤
        (compute_metrics (9/10) 1 1 (1/2) (1/4) (1/4) 2
          Quality.Standard Schedule.OnTime 1 1 1).2.2.2.2) ∧
    (∀ w : ℚ, (1/2 : ℚ) < w → w ≤ 1 →
      (compute_metrics (9/10) 1 1 (1/2) (1/4) (1/4) 2
        Quality.Standard Schedule.OnTime 1 1 1).1 <
        (compute_metrics (9/10) 1 1 w (1/4) (1/4) 2
          Quality.Standard Schedule.OnTime 1 1 1).1 ∧
      (compute_metrics (9/10) 1 1 w (1/4) (1/4) 2
        Quality.Standard Schedule.OnTime 1 1 1).2.2.2.2 ≤
        (compute_metrics (9/10) 1 1 (1/2) (1/4) (1/4) 2
          Quality.Standard Schedule.OnTime 1 1 1).2.2.2.2) :=
  compute_metrics_monotone (9/10) 1 1 (1/2) (1/4) (1/4) 2 1 1 1
    Quality.Standard Schedule.OnTime
    (by norm_num) (by norm_num) (by norm_num) (by norm_num) (by norm_num) (by norm_num)
    (by norm_num) (by norm_num) (by norm_num) (by norm_num) (by norm_num) (by norm_num)
    (by norm_num) (by norm_num)
    (by norm_num [compute_metrics, qual_mults, sched_mults])

/-! ## Monte-Carlo sampler (Section 6 of the source, lines 590-637)

`run_mc` builds a fresh `Generator(PCG64DXSM(seed=0))` and draws, in
sequence, `N` samples for each distribution.  The embedding abstracts the
numerical content of numpy's generator: `pcg : ℕ → ℕ → ℚ` maps a seed and
a position in the stream to the raw draw consumed at that position, and an
`RNGAlg` maps a raw draw and the distribution parameters to the sample
(numpy's normal / triangular / uniform transforms).  The consumption order
of the stream (`N` draws per sampled parameter, none for a parameter whose
zero baseline skips sampling) is threaded explicitly, so determinism and
the zero-baseline special cases are faithful to the source. -/

/-- The distribution transforms of numpy's `Generator`: the sample each
method produces from a raw stream draw and the distribution parameters
(`normalT mean std raw`, `triangularT left mode right raw`,
`uniformT low high raw`). -/
structure RNGAlg where
  normalT : ℚ → ℚ → ℚ → ℚ
  triangularT : ℚ → ℚ → ℚ → ℚ → ℚ
  uniformT : ℚ → ℚ → ℚ → ℚ

/-- numpy's `.clip(0, 1)`. -/
def clip01 (x : ℚ) : ℚ := max 0 (min 1 x)

/-- The Monte-Carlo parameter set: the fields of the sidebar `params`
dict that `run_mc` reads. -/
structure MCParams where
  a1 : ℚ
  a2 : ℚ
  a3 : ℚ
  b0 : ℚ
  cross_ratio : ℚ
  prep_post_ratio : ℚ
  loss_unit : ℚ
  T1 : ℚ
  T2 : ℚ
  T3 : ℚ
  qual : Quality
  sched : Schedule
deriving DecidableEq

/-- The shared sampling pattern of `CRs`, `PPs` and `Ls` (lines 607-624):
`rng.triangular(0.8·baseline, baseline, 1.2·baseline, N)` when
`baseline > 0`, else `np.zeros(N)` — the zero-baseline special case that
fixes the parameter instead of sampling a degenerate triangular. -/
def mc_ratio_samples (alg : RNGAlg) (u : ℕ → ℚ) (off : ℕ) (baseline : ℚ) (N : ℕ) :
    List ℚ :=
  if baseline > 0 then
    (List.range N).map fun i =>
      alg.triangularT (baseline * (8/10)) baseline (baseline * (12/10)) (u (off + i))
  else
    List.replicate N 0

/-- `run_mc(p, N)` of lines 590-637, returning
`(Evals, Svals, Cvals, L_samples)`.  `np_global` models the ambient numpy
global random state (which `run_sobol` mutates via `np.random.seed`):
`run_mc` never reads it — it seeds its own fresh generator with the
constant seed 0 (`rng = Generator(PCG64DXSM(seed=0))`, line 593) — so the
argument is unused, exactly as in the source. -/
def run_mc (alg : RNGAlg) (pcg : ℕ → ℕ → ℚ) (np_global : ℕ) (p : MCParams) (N : ℕ) :
    List ℚ × List ℚ × List ℚ × List ℚ :=
  let u := pcg 0
  let a1s := (List.range N).map fun i =>
    clip01 (alg.normalT p.a1 (max (1/100) (p.a1 * (3/100))) (u i))
  let a2s := (List.range N).map fun i =>
    clip01 (alg.normalT p.a2 (max (1/100) (p.a2 * (3/100))) (u (N + i)))
  let a3s := (List.range N).map fun i =>
    clip01 (alg.triangularT (p.a3 * (9/10)) p.a3 (p.a3 * (11/10)) (u (2*N + i)))
  let b0s := (List.range N).map fun i =>
    alg.uniformT (max 0 (p.b0 - 1/10)) (min 1 (p.b0 + 1/10)) (u (3*N + i))
  let t1s := (List.range N).map fun i => max 1 (alg.normalT p.T1 (p.T1 * (1/10)) (u (4*N + i)))
  let t2s := (List.range N).map fun i => max 1 (alg.normalT p.T2 (p.T2 * (1/10)) (u (5*N + i)))
  let t3s := (List.range N).map fun i => max 1 (alg.normalT p.T3 (p.T3 * (1/10)) (u (6*N + i)))
  let CRs := mc_ratio_samples alg u (7*N) p.cross_ratio N
  let offPP := 7*N + (if p.cross_ratio > 0 then N else 0)
  let PPs := mc_ratio_samples alg u offPP p.prep_post_ratio N
  let offL := offPP + (if p.prep_post_ratio > 0 then N else 0)
  let Ls := mc_ratio_samples alg u offL p.loss_unit N
  let qm := qual_mults p.qual
  let sm := sched_mults p.sched
  let a_tot := List.zipWith (· * ·) (List.zipWith (· * ·) a1s a2s) a3s
  let b_eff := b0s.map fun x => x * qm.2 * sm.2
  let Svals := List.zipWith (fun x y => 1 - (1 - x) * (1 - y)) a_tot b_eff
  let Tvals := (List.zipWith (· + ·) (List.zipWith (· + ·) t1s t2s) t3s).map
    fun x => x * qm.1 * sm.1
  let Cvals := List.zipWith (· * ·) Tvals (List.zipWith (fun cr pp => 1 + cr + pp) CRs PPs)
  let LC := List.zipWith (· * ·) Ls Cvals
  let LCS := List.zipWith (fun x s => x * (1 - s)) LC Svals
  let Evals := List.zipWith (· / ·) (List.zipWith (· + ·) Cvals LCS) Svals
  (Evals, Svals, Cvals, Ls)

/-- C5: the Monte-Carlo sampler is reproducible — its output arrays are a
pure function of the parameter set, the sample count and the (fixed,
seed-0) generator stream: two runs under arbitrarily different ambient
numpy global states return identical (hence, in exact arithmetic,
bit-identical) `(E_total, S, C, loss_unit)` sample arrays. -/
theorem run_mc_deterministic (alg : RNGAlg) (pcg : ℕ → ℕ → ℚ) (g g' : ℕ)
    (p : MCParams) (N : ℕ) :
    run_mc alg pcg g p N = run_mc alg pcg g' p N := rfl

/-- C8: the zero-baseline handling of `cross_check_ratio`,
`prep_post_ratio` and `loss_unit` in the sampler: a parameter whose
baseline is exactly 0 is not drawn from a triangular distribution but
fixed at 0 for all `N` samples; a positive baseline is drawn from the
triangular distribution `(0.8·baseline, baseline, 1.2·baseline)`; and the
returned loss-unit array of `run_mc` is exactly the all-zero array when
the loss-unit baseline is 0 (the function totally evaluates — nothing is
raised). -/
theorem mc_zero_baseline_fixed :
    (∀ (alg : RNGAlg) (u : ℕ → ℚ) (off : ℕ) (N : ℕ),
      mc_ratio_samples alg u off 0 N = List.replicate N 0) ∧
    (∀ (alg : RNGAlg) (u : ℕ → ℚ) (off : ℕ) (baseline : ℚ) (N : ℕ), 0 < baseline →
      mc_ratio_samples alg u off baseline N =
        (List.range N).map fun i =>
          alg.triangularT (baseline * (8/10)) baseline (baseline * (12/10)) (u (off + i))) ∧
    (∀ (alg : RNGAlg) (pcg : ℕ → ℕ → ℚ) (g : ℕ) (p : MCParams) (N : ℕ),
      p.loss_unit = 0 → (run_mc alg pcg g p N).2.2.2 = List.replicate N 0) := by
  refine ⟨fun alg u off N => ?_, fun alg u off baseline N h => ?_, fun alg pcg g p N h => ?_⟩
  · simp [mc_ratio_samples]
  · simp [mc_ratio_samples, h]
  · simp [run_mc, mc_ratio_samples, h]

/-! ## Local tornado sensitivity (Section 10 of the source, lines 786-816)

The source perturbs each of the seven parameters of `sens_targets` (in
dict order `a1, a2, a3, b0, CR, PP, L`) to `lo = max(0.8·v, 0)` and
`hi = min(1.2·v, 1)` (probability-typed) or `1.2·v` (ratio/loss), records
`delta = max(|E(lo)−E|, |E(hi)−E|)/E`, and sorts the resulting DataFrame
with `sort_values("RelChange", ascending=False)`. -/

/-- The keys of the `sens_targets` dict (line 789), in its iteration
order `a1, a2, a3, b0, CR, PP, L`. -/
inductive TParam
  | a1
  | a2
  | a3
  | b0
  | CR
  | PP
  | L
deriving DecidableEq

/-- The baseline value `sens_targets[k]` of a tornado parameter. -/
def sens_targets (p : MCParams) : TParam → ℚ
  | .a1 => p.a1
  | .a2 => p.a2
  | .a3 => p.a3
  | .b0 => p.b0
  | .CR => p.cross_ratio
  | .PP => p.prep_post_ratio
  | .L => p.loss_unit

/-- The keyword override `kw.update(ov)` of the tornado loop: the
parameter set with one field replaced (via `name_map`, line 792). -/
def set_param (p : MCParams) : TParam → ℚ → MCParams
  | .a1, v => ⟨v, p.a2, p.a3, p.b0, p.cross_ratio, p.prep_post_ratio, p.loss_unit,
      p.T1, p.T2, p.T3, p.qual, p.sched⟩
  | .a2, v => ⟨p.a1, v, p.a3, p.b0, p.cross_ratio, p.prep_post_ratio, p.loss_unit,
      p.T1, p.T2, p.T3, p.qual, p.sched⟩
  | .a3, v => ⟨p.a1, p.a2, v, p.b0, p.cross_ratio, p.prep_post_ratio, p.loss_unit,
      p.T1, p.T2, p.T3, p.qual, p.sched⟩
  | .b0, v => ⟨p.a1, p.a2, p.a3, v, p.cross_ratio, p.prep_post_ratio, p.loss_unit,
      p.T1, p.T2, p.T3, p.qual, p.sched⟩
  | .CR, v => ⟨p.a1, p.a2, p.a3, p.b0, v, p.prep_post_ratio, p.loss_unit,
      p.T1, p.T2, p.T3, p.qual, p.sched⟩
  | .PP, v => ⟨p.a1, p.a2, p.a3, p.b0, p.cross_ratio, v, p.loss_unit,
      p.T1, p.T2, p.T3, p.qual, p.sched⟩
  | .L, v => ⟨p.a1, p.a2, p.a3, p.b0, p.cross_ratio, p.prep_post_ratio, v,
      p.T1, p.T2, p.T3, p.qual, p.sched⟩

/-- The inner `e_tot(**ov)` helper (lines 799-806): `compute_metrics` at
the (possibly overridden) parameter set, component `[4]` (`E_total`). -/
def e_tot (p : MCParams) : ℚ :=
  (compute_metrics p.a1 p.a2 p.a3 p.b0 p.cross_ratio p.prep_post_ratio p.loss_unit
    p.qual p.sched p.T1 p.T2 p.T3).2.2.2.2

/-- Whether the tornado clamps `hi` at 1: `k in ("a1","a2","a3","b0")`
(line 798). -/
def isProbParam : TParam → Bool
  | .a1 => true
  | .a2 => true
  | .a3 => true
  | .b0 => true
  | .CR => false
  | .PP => false
  | .L => false

/-- `lo = max(base*0.8, 0)` (line 797). -/
def tornado_lo (p : MCParams) (k : TParam) : ℚ := max (sens_targets p k * (8/10)) 0

/-- `hi = min(base*1.2, 1) if k in ("a1","a2","a3","b0") else base*1.2`
(line 798). -/
def tornado_hi (p : MCParams) (k : TParam) : ℚ :=
  if isProbParam k then min (sens_targets p k * (12/10)) 1 else sens_targets p k * (12/10)

/-- `delta = max(abs(e_tot(lo)-E_total), abs(e_tot(hi)-E_total))/E_total`
(lines 807-808): the relative impact of one parameter. -/
def tornado_row (p : MCParams) (k : TParam) : ℚ :=
  max |e_tot (set_param p k (tornado_lo p k)) - e_tot p|
    |e_tot (set_param p k (tornado_hi p k)) - e_tot p| / e_tot p

/-- The iteration order of `sens_targets.items()`. -/
def tornado_order : List TParam := [.a1, .a2, .a3, .b0, .CR, .PP, .L]

/-- The `tornado` list of `(parameter, impact)` pairs built by the loop
(lines 795-809), in input iteration order. -/
def tornado_list (p : MCParams) : List (TParam × ℚ) :=
  tornado_order.map fun k => (k, tornado_row p k)

/-- pandas `DataFrame.sort_values(col, ascending=False)` (line 811) for a
short column: `nargsort` reverses the values, argsorts them ascending —
for fewer than 16 rows numpy's quicksort runs its plain insertion sort,
which is stable — and reverses the resulting indexer again. -/
def pandas_sort_desc (l : List (TParam × ℚ)) : List (TParam × ℚ) :=
  (l.reverse.mergeSort fun x y => decide (x.2 ≤ y.2)).reverse

/-- `df_tornado` (lines 810-811): the tornado pairs sorted descending by
impact. -/
def df_tornado (p : MCParams) : List (TParam × ℚ) :=
  pandas_sort_desc (tornado_list p)

theorem tor_le_trans : ∀ a b c : TParam × ℚ,
    (decide (a.2 ≤ b.2)) = true → (decide (b.2 ≤ c.2)) = true →
    (decide (a.2 ≤ c.2)) = true := by
  intro a b c hab hbc
  simp only [decide_eq_true_eq] at *
  exact le_trans hab hbc

theorem tor_le_total : ∀ a b : TParam × ℚ,
    ((decide (a.2 ≤ b.2)) || (decide (b.2 ≤ a.2))) = true := by
  intro a b
  simp only [Bool.or_eq_true, decide_eq_true_eq]
  exact le_total a.2 b.2

theorem df_tornado_perm (p : MCParams) : (df_tornado p).Perm (tornado_list p) := by
  refine ((tornado_list p).reverse.mergeSort _).reverse_perm.trans ?_
  exact (List.mergeSort_perm _ _).trans (tornado_list p).reverse_perm

/-- C7: the tornado output is its `(parameter, impact)` pairs sorted in
descending order of impact, it is a permutation of the pairs built in
input iteration order, and the sort is stable: any two pairs with exactly
equal impact appear in `df_tornado` in their input iteration order (the
double reversal inside pandas `nargsort` with a stable underlying argsort
preserves the order of ties). -/
theorem df_tornado_sorted_stable (p : MCParams) :
    (df_tornado p).Pairwise (fun x y => y.2 ≤ x.2) ∧
    (df_tornado p).Perm (tornado_list p) ∧
    (∀ x y : TParam × ℚ, x.2 = y.2 → [x, y].Sublist (tornado_list p) →
      [x, y].Sublist (df_tornado p)) := by
  refine ⟨?_, df_tornado_perm p, ?_⟩
  · have hs := List.sorted_mergeSort tor_le_trans tor_le_total (tornado_list p).reverse
    rw [df_tornado, pandas_sort_desc, List.pairwise_reverse]
    exact hs.imp fun h => of_decide_eq_true h
  · intro x y hxy hsub
    have h1 : [y, x].Sublist (tornado_list p).reverse := by
      have := hsub.reverse
      simpa using this
    have h2 : List.Pairwise (fun a b : TParam × ℚ => (decide (a.2 ≤ b.2)) = true) [y, x] := by
      refine List.pairwise_pair.mpr ?_
      simp [hxy.ge]
    have h3 := List.sublist_mergeSort tor_le_trans tor_le_total h2 h1
    have h4 := h3.reverse
    simpa [df_tornado, pandas_sort_desc] using h4

/-- C9: for a valid baseline (`S > 0`, baseline `E_total > 0`), ANY
tornado-analyzed parameter `k` whose baseline value is 0 (e.g.
`loss_unit = 0`, but also `b0 = 0`, `CR = 0`, `PP = 0`) gets `lo = hi = 0`
— through the probability clamp `min(1.2·v, 1)` for `a1, a2, a3, b0` and
through `1.2·v` for the rest — and impact exactly 0, with no division
failure (its impact is the rational `0`, not a NaN: in exact arithmetic
the only NaN source, `0/0`, is excluded by `E_total > 0`), and the pair
`(k, 0)` still appears in the ranked output. -/
theorem tornado_zero_baseline_impact (p : MCParams) (k : TParam)
    (hS : 0 < (compute_metrics p.a1 p.a2 p.a3 p.b0 p.cross_ratio p.prep_post_ratio
      p.loss_unit p.qual p.sched p.T1 p.T2 p.T3).1)
    (hE : 0 < e_tot p) (hv : sens_targets p k = 0) :
    tornado_lo p k = 0 ∧ tornado_hi p k = 0 ∧
    tornado_row p k = 0 ∧ (k, (0:ℚ)) ∈ df_tornado p := by
  have hlo : tornado_lo p k = 0 := by
    simp [tornado_lo, hv]
  have hhi : tornado_hi p k = 0 := by
    rw [tornado_hi, hv]
    cases hk : isProbParam k <;> norm_num [min_def]
  have hset : set_param p k 0 = p := by
    rcases k <;> (cases p; simp_all [set_param, sens_targets])
  have hrow : tornado_row p k = 0 := by
    rw [tornado_row, hlo, hhi, hset]
    simp
  refine ⟨hlo, hhi, hrow, ?_⟩
  have hmem : (k, tornado_row p k) ∈ tornado_list p := by
    rcases k <;> simp [tornado_list, tornado_order]
  rw [hrow] at hmem
  exact (df_tornado_perm p).mem_iff.mpr hmem

/-- A valid baseline whose checker skill `b0` is 0 (a probability-typed
tornado parameter with zero baseline): `a1=0.95, a2=0.95, a3=0.80, b0=0,
CR=0.30, PP=0.40, loss_unit=5, T=(10,10,30), Standard, OnTime` — here
`S = a_total = 0.722 > 0` and `E_total > 0`. -/
def b0_zero_params : MCParams :=
  ⟨0.95, 0.95, 0.80, 0, 0.30, 0.40, 5, 10, 10, 30, Quality.Standard, Schedule.OnTime⟩

/-- C9 witness: the zero-baseline tornado behaviour at `b0_zero_params`
for the probability-typed parameter `b0` (exercising the `min(1.2·v, 1)`
clamp branch of line 798). -/
theorem tornado_zero_baseline_impact_example :
    tornado_lo b0_zero_params TParam.b0 = 0 ∧ tornado_hi b0_zero_params TParam.b0 = 0 ∧
    tornado_row b0_zero_params TParam.b0 = 0 ∧
    (TParam.b0, (0:ℚ)) ∈ df_tornado b0_zero_params :=
  tornado_zero_baseline_impact b0_zero_params TParam.b0
    (by norm_num [b0_zero_params, compute_metrics, qual_mults, sched_mults])
    (by norm_num [b0_zero_params, e_tot, compute_metrics, qual_mults, sched_mults])
    rfl

/-! ## Standardized sensitivities (lines 639-642 and 736-742 of the source)

Line 640 computes the empirical standard deviations of the Monte-Carlo
sample arrays — note `σL = (Cvals * L_samples).std()`, the standard
deviation of the elementwise PRODUCT of the labor-cost samples with the
loss-unit samples — and lines 740-742 scale the symbolic derivatives:
`std_C, std_S, std_L = (dE_dC·σC/σE, dE_dS·σS/σE, dE_dL·σL/σE)`. -/

/-- numpy `.mean()` of a sample array (with the junk value 0 for an empty
array, irrelevant here). -/
def mean (xs : List ℚ) : ℚ := xs.sum / xs.length

/-- The population variance inside numpy `.std()` (default `ddof=0`):
the mean squared deviation from the mean. -/
def pvariance (xs : List ℚ) : ℚ := ((xs.map fun x => (x - mean xs) ^ 2).sum) / xs.length

/-- numpy `.std()`: the square root of the population variance. -/
noncomputable def std (xs : List ℚ) : ℝ := Real.sqrt ((pvariance xs : ℚ) : ℝ)

/-- The reported standardized sensitivities `(std_C, std_S, std_L)` as a
function of the three symbolic derivatives and of the Monte-Carlo sample
arrays `(Evals, Cvals, Svals, L_samples)`: lines 640 and 740-742 composed,
with `σL` the standard deviation of `Cvals * L_samples`. -/
noncomputable def standardized_sens (dC dS dL : ℚ) (Evals Cvals Svals Ls : List ℚ) :
    ℝ × ℝ × ℝ :=
  ((dC : ℝ) * std Cvals / std Evals,
   (dS : ℝ) * std Svals / std Evals,
   (dL : ℝ) * std (List.zipWith (· * ·) Cvals Ls) / std Evals)

/-- The specification's §4.4 formula, modelled from the spec's words for
the comparison: `standardized(x) = (∂E_total/∂x) · σ_x / σ_E_total` where
`σ_x` is the empirical standard deviation of the samples OF `x` ITSELF
(for `x = loss_unit`: of the loss-unit samples actually drawn). -/
noncomputable def standardized_spec (d : ℚ) (xs Evals : List ℚ) : ℝ :=
  (d : ℝ) * std xs / std Evals

/-- C3 counterexample: with sample arrays `Cvals = [2,2]`, `L_samples =
[1,3]`, `Evals = [0,2]` and derivative 1, the code's reported loss-unit
standardized sensitivity is `σ(C·ℓ)/σE = 2` while the claimed
`σ(loss_unit_samples)` convention gives `1`: the two conventions differ. -/
theorem std_L_uses_product_convention :
    (standardized_sens 1 1 1 [0, 2] [2, 2] [0, 1] [1, 3]).2.2 ≠
      standardized_spec 1 [1, 3] [0, 2] := by
  have hz : List.zipWith (· * ·) ([2, 2] : List ℚ) [1, 3] = [2, 6] := by
    norm_num
  have hv1 : pvariance ([2, 6] : List ℚ) = 4 := by
    norm_num [pvariance, mean]
  have hv2 : pvariance ([1, 3] : List ℚ) = 1 := by
    norm_num [pvariance, mean]
  have hv3 : pvariance ([0, 2] : List ℚ) = 1 := by
    norm_num [pvariance, mean]
  have hs1 : std ([2, 6] : List ℚ) = 2 := by
    rw [std, hv1, show ((4:ℚ):ℝ) = (2:ℝ)^2 by norm_num]
    exact Real.sqrt_sq (by norm_num)
  have hs2 : std ([1, 3] : List ℚ) = 1 := by
    rw [std, hv2]
    norm_num [Real.sqrt_one]
  have hs3 : std ([0, 2] : List ℚ) = 1 := by
    rw [std, hv3]
    norm_num [Real.sqrt_one]
  simp only [standardized_sens, standardized_spec, hz, hs1, hs2, hs3]
  norm_num

/-- C3 (amended): the reported standardized sensitivities follow the
spec's `σ_x` convention for `x ∈ {C, S}` — `std_C = dE_dC·σ(Cvals)/σE`,
`std_S = dE_dS·σ(Svals)/σE` — but for `loss_unit` the code scales by the
standard deviation of the elementwise product `Cvals * L_samples`
(the `σ(C·ℓ)` convention), not of the loss-unit samples alone. -/
theorem standardized_sens_conventions (dC dS dL : ℚ) (Evals Cvals Svals Ls : List ℚ) :
    standardized_sens dC dS dL Evals Cvals Svals Ls =
      (standardized_spec dC Cvals Evals,
       standardized_spec dS Svals Evals,
       standardized_spec dL (List.zipWith (· * ·) Cvals Ls) Evals) := rfl

end CrossCheck
